import Mathlib

/-!
Shallow embedding of src/aioamqp/types.py, the wire-serialization core of
the repository, together with the Properties record of
src/aioamqp/properties.py. Byte streams are lists of byte values (Nat
below 256), and Python values at the modeled call sites are the PyVal
union below. The source raises Python runtime exceptions on most paths
(struct.error, TypeError, KeyError, NameError, AttributeError,
AssertionError, ValueError, NotImplementedError), so those outcomes are
modeled explicitly. Every write-style function modeled here fails, when
it fails, before its first byte reaches the stream of its caller, so an
error result means that nothing was emitted to that stream.
-/

namespace Aioamqp

/-- Python exception kinds raised by the modeled code paths. -/
inductive PyErr where
  | typeError
  | structError
  | keyError
  | nameError
  | attributeError
  | assertionError
  | notImplementedError
  | valueError

/-- Dynamically typed Python values appearing at the modeled call sites.
The stream constructor stands for an io.BytesIO object handed around as an
ordinary value, which happens in several swapped-argument calls of the
source. The properties constructor is the Properties namedtuple of
src/aioamqp/properties.py, fields in declaration order, an absent field
holding the none value. Nested dict values are outside the modeled domain;
no claim needs them, and a Python dict argument is represented by its item
list where a function consumes one. -/
inductive PyVal where
  | int : Int → PyVal
  | str : String → PyVal
  | bytes : List Nat → PyVal
  | bool : Bool → PyVal
  | none : PyVal
  | stream : PyVal
  | properties : List PyVal → PyVal

/-- True exactly for the Properties namedtuple, as isinstance(value,
Properties) tests in MessageProperties.write. -/
def PyVal.isProperties : PyVal → Bool
  | .properties _ => true
  | _ => false

/-- True exactly for the Python None value. -/
def PyVal.isNone : PyVal → Bool
  | .none => true
  | _ => false

/-- Python truthiness: an empty sequence is falsy, a number is falsy when
zero, None is falsy, any other modeled value is truthy. In particular a
bytes object of length one is always truthy, whatever its byte is. -/
def pyTruthy : PyVal → Bool
  | .bytes bs => !bs.isEmpty
  | .int n => n != 0
  | .bool b => b
  | .str s => !s.isEmpty
  | .none => false
  | .stream => true
  | .properties l => !l.isEmpty

/-- Python len(): defined for sequences, a TypeError otherwise. For text it
is the character count, not the UTF-8 byte count. -/
def pyLen : PyVal → Except PyErr Nat
  | .str s => .ok s.length
  | .bytes bs => .ok bs.length
  | .properties l => .ok l.length
  | _ => .error .typeError

/-- Python equality as used by dict lookup in the modeled code: values of
different shapes are unequal, except that a bool equals the matching int.
Container values are never compared in this development. -/
def pyEq : PyVal → PyVal → Bool
  | .int a, .int b => a == b
  | .bool a, .bool b => a == b
  | .int a, .bool b => a == (if b then 1 else 0)
  | .bool a, .int b => (if a then 1 else 0) == b
  | .str a, .str b => a == b
  | .bytes a, .bytes b => a == b
  | .none, .none => true
  | _, _ => false

/-- Dict lookup over an association list, comparing keys with Python
equality; a miss is a KeyError at the call sites. -/
def pyLookup {α : Type} (assoc : List (PyVal × α)) (k : PyVal) : Option α :=
  (assoc.find? (fun kv => pyEq kv.1 k)).map (fun kv => kv.2)

/-- UTF-8 bytes of a Lean string, modeling str.encode(). -/
def strUtf8 (s : String) : List Nat :=
  s.toUTF8.toList.map (fun b => b.toNat)

/-- Big-endian bytes of a natural number, width bytes wide. -/
def beBytes (width n : Nat) : List Nat :=
  (List.range width).map (fun k => n / 2 ^ (8 * (width - 1 - k)) % 256)

/-- Big-endian value of a byte list. -/
def beVal (bs : List Nat) : Int :=
  bs.foldl (fun a b => a * 256 + (b : Int)) 0

/-- Reinterpret an unsigned big-endian value of w bytes as two-complement
signed. -/
def signedOf (w : Nat) (n : Int) : Int :=
  if n ≥ 2 ^ (8 * w - 1) then n - 2 ^ (8 * w) else n

/-- Python int value of a PyVal known to be a number; a bool counts as its
int value. Used only where the source has just produced an int. -/
def pyIntVal : PyVal → Int
  | .int n => n
  | .bool b => if b then 1 else 0
  | _ => 0

/-- The codec classes defined in types.py. -/
inductive Codec where
  | Bool | Char | UnsignedChar | SignedChar
  | Short | SignedShort | Long | SignedLong
  | LongLong | SignedLongLong | UnsignedLongLong
  | Float | Double | Decimal | ShortStr | LongStr
  | List | TimeStamp | Table

/-- The format class attribute of each codec, exactly as the source sets
it. UnsignedChar overrides only format (size is inherited from Char);
UnsignedLongLong has a pass body, so it keeps the None format inherited
from Primitive; the non-Primitive classes have no format attribute, which
is also modeled as none. -/
def Codec.format : Codec → Option String
  | .Char => some "!c"
  | .UnsignedChar => some "!B"
  | .SignedChar => some "!b"
  | .Short => some "!H"
  | .SignedShort => some "!h"
  | .Long => some "!I"
  | .SignedLong => some "!i"
  | .LongLong => some "!Q"
  | .SignedLongLong => some "!q"
  | .Float => some "!f"
  | .Double => some "!d"
  | _ => none

/-- The size class attribute of each codec, exactly as the source sets it.
UnsignedLongLong keeps the None size inherited from Primitive. -/
def Codec.size : Codec → Option Nat
  | .Char | .UnsignedChar | .SignedChar => some 1
  | .Short | .SignedShort => some 2
  | .Long | .SignedLong | .Float => some 4
  | .LongLong | .SignedLongLong | .Double => some 8
  | _ => none

/-- Width and signed-range checked big-endian packing of a number, the
integer cases of struct.pack. A non-number argument is a struct.error. -/
def packAsInt (width : Nat) (lo hi : Int) (v : PyVal) : Except PyErr (List Nat) :=
  match v with
  | .int n =>
      if lo ≤ n ∧ n ≤ hi then .ok (beBytes width ((n.emod (2 ^ (8 * width))).toNat))
      else .error .structError
  | .bool b =>
      .ok (beBytes width (if b then 1 else 0))
  | _ => .error .structError

/-- Model of struct.pack for the formats the source uses. Format c needs a
bytes object of length one. The float formats are never reached by any
modeled call site, so they are collapsed to the error case. -/
def structPack : String → PyVal → Except PyErr (List Nat)
  | "!c", .bytes bs => if bs.length = 1 then .ok bs else .error .structError
  | "!c", _ => .error .structError
  | "!B", v => packAsInt 1 0 255 v
  | "!b", v => packAsInt 1 (-128) 127 v
  | "!H", v => packAsInt 2 0 65535 v
  | "!h", v => packAsInt 2 (-32768) 32767 v
  | "!I", v => packAsInt 4 0 4294967295 v
  | "!i", v => packAsInt 4 (-2147483648) 2147483647 v
  | "!Q", v => packAsInt 8 0 18446744073709551615 v
  | "!q", v => packAsInt 8 (-9223372036854775808) 9223372036854775807 v
  | _, _ => .error .structError

/-- Model of struct.unpack for the formats the source uses; it demands
exactly the format width of bytes. Format c yields the bytes object
itself, which is how the source ends up comparing bytes against ints. -/
def structUnpack : String → List Nat → Except PyErr PyVal
  | "!c", bs => if bs.length = 1 then .ok (.bytes bs) else .error .structError
  | "!B", bs => if bs.length = 1 then .ok (.int (beVal bs)) else .error .structError
  | "!b", bs => if bs.length = 1 then .ok (.int (signedOf 1 (beVal bs))) else .error .structError
  | "!H", bs => if bs.length = 2 then .ok (.int (beVal bs)) else .error .structError
  | "!h", bs => if bs.length = 2 then .ok (.int (signedOf 2 (beVal bs))) else .error .structError
  | "!I", bs => if bs.length = 4 then .ok (.int (beVal bs)) else .error .structError
  | "!i", bs => if bs.length = 4 then .ok (.int (signedOf 4 (beVal bs))) else .error .structError
  | "!Q", bs => if bs.length = 8 then .ok (.int (beVal bs)) else .error .structError
  | "!q", bs => if bs.length = 8 then .ok (.int (signedOf 8 (beVal bs))) else .error .structError
  | _, _ => .error .structError

/-- Primitive.read of types.py: reader.read(cls.size) then
struct.unpack(cls.format, data), returning the value and the rest of the
stream. A None size reads the whole stream and a None format is then a
TypeError inside struct.unpack. -/
def Primitive.read (c : Codec) (input : List Nat) : Except PyErr (PyVal × List Nat) :=
  match Codec.size c with
  | some sz =>
      match Codec.format c with
      | some f => (structUnpack f (input.take sz)).map (fun v => (v, input.drop sz))
      | none => .error .typeError
  | none => .error .typeError

/-- Primitive.write of types.py: stream.write(struct.pack(cls.format,
value)); the result is the byte list appended to the stream argument. A
None format is a TypeError inside struct.pack. -/
def Primitive.write (c : Codec) (v : PyVal) : Except PyErr (List Nat) :=
  match Codec.format c with
  | some f => structPack f v
  | none => .error .typeError

/-- AmqpType.read of types.py raises NotImplementedError; every subclass
that does not override read inherits this behavior. -/
def AmqpType.read (_input : List Nat) : Except PyErr (PyVal × List Nat) :=
  .error .notImplementedError

/-- Bool.read of types.py: bool(Char.read(reader)). Char.read unpacks with
format c and therefore returns a one-byte bytes object, and the truthiness
of a non-empty bytes object is true whatever the byte value is. -/
def Bool.read (input : List Nat) : Except PyErr (Bool × List Nat) := do
  let (v, rest) ← Primitive.read Codec.Char input
  .ok (pyTruthy v, rest)

/-- Bool.write of types.py has the parameter order (stream, bits), so a
caller following the write(value, stream) convention of AmqpType puts the
value in the stream slot and the BytesIO stream in the bits slot. len of a
BytesIO object is a TypeError; even with a sized bits argument of length
at most 8, the next line subtracts an int from a tuple, a TypeError. -/
def Bool.write (_value : PyVal) : Except PyErr (List Nat) :=
  match pyLen PyVal.stream with
  | .error e => .error e
  | .ok n => if n ≤ 8 then .error .typeError else .error .assertionError

/-- BaseStr.write_str of types.py: writes the UTF-8 encoding of a str, a
bytes object unchanged, and silently nothing for any other type, because
the if and elif have no else branch. -/
def BaseStr.write_str : PyVal → Except PyErr (List Nat)
  | .str s => .ok (strUtf8 s)
  | .bytes bs => .ok bs
  | _ => .ok []

/-- BaseStr.write of types.py: cls.len_type.write(stream, len(value))
followed by write_str. len(value) is evaluated first; the len_type call
then puts the stream object into the value slot of Primitive.write, so
struct.pack receives a BytesIO where it needs an int and raises
struct.error before any byte is written. Note also that len of a str is
its character count, not its UTF-8 byte count. -/
def BaseStr.write (len_type : Codec) (value : PyVal) : Except PyErr (List Nat) := do
  let _ ← pyLen value
  let w1 ← Primitive.write len_type PyVal.stream
  let w2 ← BaseStr.write_str value
  .ok (w1 ++ w2)

/-- ShortStr of types.py: BaseStr with len_type UnsignedChar. -/
def ShortStr.write (value : PyVal) : Except PyErr (List Nat) :=
  BaseStr.write Codec.UnsignedChar value

/-- LongStr of types.py: BaseStr with len_type Long. -/
def LongStr.write (value : PyVal) : Except PyErr (List Nat) :=
  BaseStr.write Codec.Long value

/-- BaseStr.read of types.py: length = cls.len_type.read(reader), then
reader.read(length).decode(). The argument order is correct here. Bytes
are kept undecoded in the model; no claim inspects the text. -/
def BaseStr.read (len_type : Codec) (input : List Nat) : Except PyErr (PyVal × List Nat) := do
  let (n, rest) ← Primitive.read len_type input
  let len := (pyIntVal n).toNat
  .ok (.bytes (rest.take len), rest.drop len)

/-- Python Decimal values: a sign, a coefficient and a base-ten exponent,
denoting coeff times ten to the exponent, negated when neg is true. -/
structure PyDecimal where
  neg : Bool
  coeff : Nat
  exp : Int

/-- Strip trailing zero digits of a coefficient, returning the stripped
coefficient and the number of digits removed; the first argument is fuel
bounding the recursion, which the callers set to the coefficient itself. -/
def stripTrailing : Nat → Nat → Nat × Nat
  | 0, n => (n, 0)
  | fuel + 1, n =>
      if n % 10 = 0 ∧ n ≠ 0 then
        let p := stripTrailing fuel (n / 10)
        (p.1, p.2 + 1)
      else (n, 0)

/-- Decimal.normalize of the Python decimal library: remove trailing zero
digits, and a zero value normalizes to exponent zero. -/
def PyDecimal.normalize (v : PyDecimal) : PyDecimal :=
  if v.coeff = 0 then ⟨v.neg, 0, 0⟩
  else
    let p := stripTrailing v.coeff v.coeff
    ⟨v.neg, p.1, v.exp + p.2⟩

/-- Python int() of a decimal whose exponent is not negative. -/
def PyDecimal.toInt (v : PyDecimal) : Int :=
  (if v.neg then -1 else 1) * (v.coeff : Int) * 10 ^ v.exp.toNat

/-- Decimal.write of types.py. The scale and unscaled integer are computed
first (the scale is taken from the exponent of the unnormalized value even
though the branch tested the normalized one), and then
UnsignedChar.write(stream, decimals) and SignedLong.write(stream, raw) are
called with the stream in the value slot, so struct.pack raises
struct.error and nothing is written. -/
def Decimal.write (v : PyDecimal) : Except PyErr (List Nat) := do
  let normalized := v.normalize
  let decimals : Int := if normalized.exp < 0 then -v.exp else 0
  let _raw : Int :=
    if normalized.exp < 0 then
      (if v.neg then -1 else 1) * (v.coeff : Int) * 10 ^ (v.exp + decimals).toNat
    else normalized.toInt
  let w1 ← Primitive.write Codec.UnsignedChar PyVal.stream
  let w2 ← Primitive.write Codec.SignedLong PyVal.stream
  .ok (w1 ++ w2)

/-- Decimal.read of types.py: it reads the scale byte and the four-byte
signed value correctly, but the return expression applies the name Decimal,
which at that point is the codec class itself rather than the decimal
library class; calling it with an argument raises TypeError. -/
def Decimal.read (input : List Nat) : Except PyErr (PyDecimal × List Nat) := do
  let (_decimals, r1) ← Primitive.read Codec.UnsignedChar input
  let (_value, _r2) ← Primitive.read Codec.SignedLong r1
  .error .typeError

/-- The Python type of a modeled value, as type() observes it. -/
inductive PyType where
  | int | str | bytes | bool | dict | nonetype | stream | properties

/-- Shape of a value for type-based dispatch. -/
def pyType : PyVal → PyType
  | .int _ => .int
  | .str _ => .str
  | .bytes _ => .bytes
  | .bool _ => .bool
  | .none => .nonetype
  | .stream => .stream
  | .properties _ => .properties

/-- The forward registry type_to_abbreviation_ of types.py, a dict from a
one-byte bytes key to a codec class, written here as an association list
from the byte value of the tag to the codec, preserving the source order.
Note that the dict literal in the source names the classes List and Table
before they are defined, so evaluating it at import raises NameError; the
list below records the pairs as written. There is no entry for tag V. -/
def type_to_abbreviation_ : List (Nat × Codec) :=
  [ (116, .Bool),              -- t
    (98, .Char),               -- b
    (66, .SignedChar),         -- B
    (85, .SignedShort),        -- U
    (117, .Short),             -- u
    (73, .SignedLong),         -- I
    (105, .Long),              -- i
    (76, .UnsignedLongLong),   -- L
    (108, .LongLong),          -- l
    (102, .Float),             -- f
    (100, .Double),            -- d
    (68, .Decimal),            -- D
    (115, .ShortStr),          -- s
    (83, .LongStr),            -- S
    (65, .List),               -- A
    (84, .TimeStamp),          -- T
    (70, .Table) ]             -- F

/-- Lookup in the forward registry by tag byte. -/
def lookupTag (t : Nat) : Option Codec :=
  (type_to_abbreviation_.find? (fun kv => kv.1 == t)).map (fun kv => kv.2)

/-- The reverse registry type_to_abbreviation of types.py, a dict from
codec class to a one-character str tag. UnsignedChar and SignedLongLong
have no entry, which is a KeyError on lookup. -/
def type_to_abbreviation : Codec → Option String
  | .Bool => some "t"
  | .Char => some "b"
  | .SignedChar => some "B"
  | .SignedShort => some "U"
  | .Short => some "u"
  | .SignedLong => some "I"
  | .Long => some "i"
  | .UnsignedLongLong => some "L"
  | .LongLong => some "l"
  | .Float => some "f"
  | .Double => some "d"
  | .Decimal => some "D"
  | .ShortStr => some "s"
  | .LongStr => some "S"
  | .List => some "A"
  | .TimeStamp => some "T"
  | .Table => some "F"
  | _ => none

/-- The py_to_amqp dict of types.py, from a native Python type to its
default codec. The dict key is reachable only for nested dict values,
which are outside the modeled value domain. -/
def py_to_amqp : PyType → Option Codec
  | .bytes => some .LongStr
  | .str => some .LongStr
  | .int => some .Long
  | .dict => some .Table
  | .bool => some .Bool
  | _ => none

/-- BytesIO.write: accepts a bytes-like object and rejects a str with
TypeError. -/
def bufWrite : PyVal → Except PyErr (List Nat)
  | .bytes bs => .ok bs
  | _ => .error .typeError

/-- Table.writeVal covers the call sites that hand Table.write a value of
the modeled PyVal domain (the headers field of MessageProperties): a None
or empty value writes nothing, and any other modeled value either has no
len (TypeError) or has no items method (AttributeError). The dict case
proper is Table.write below, over the item list of the dict. -/
def Table.writeVal : PyVal → Except PyErr (List Nat)
  | .none => .ok []
  | v =>
      match pyLen v with
      | .error e => .error e
      | .ok 0 => .ok []
      | .ok _ => .error .attributeError

/-- Dispatch of amqp_type.write(value, stream) over the codec classes, as
the call sites of types.py can reach them. The primitive classes share
Primitive.write; TimeStamp.write forwards to LongLong.write with the
correct argument order; List has no write and falls back to AmqpType.write,
which raises NotImplementedError; Decimal.write on a value of the modeled
domain would fail looking up the normalize attribute. -/
def codecWrite : Codec → PyVal → Except PyErr (List Nat)
  | .Bool, v => Bool.write v
  | .ShortStr, v => ShortStr.write v
  | .LongStr, v => LongStr.write v
  | .Table, v => Table.writeVal v
  | .List, _ => .error .notImplementedError
  | .TimeStamp, v => Primitive.write Codec.LongLong v
  | .Decimal, _ => .error .attributeError
  | c, v => Primitive.write c v

/-- The helper write_with_type nested in Table.write of types.py, modeled
on a proper key and value pair. As written it looks up the default codec
of the value type (KeyError on a miss), then writes the tag before the
key; the tag is a str, which the BytesIO payload buffer rejects with
TypeError, so no entry is ever serialized. The four-byte length prefix is
nowhere in Table.write. -/
def write_with_type (key : String) (v : PyVal) : Except PyErr (List Nat) := do
  let c ← match py_to_amqp (pyType v) with
          | some c => Except.ok c
          | none => Except.error PyErr.keyError
  let tag ← match type_to_abbreviation c with
            | some t => Except.ok t
            | none => Except.error PyErr.keyError
  let w1 ← bufWrite (PyVal.str tag)
  let w2 ← ShortStr.write (PyVal.str key)
  let w3 ← codecWrite c v
  .ok (w1 ++ w2 ++ w3)

/-- Table.write of types.py, over the item list of the dict argument. An
empty or None table writes nothing at all (no zero length marker). For a
non-empty table the body runs reduce(write_with_type, value.items(),
payload): reduce applies the function to (accumulator, element), so the
first call passes the payload BytesIO in the key_value parameter and the
first item pair in the stream parameter; unpacking key, value = key_value
then iterates the empty BytesIO, which yields no lines, raising
ValueError before anything reaches the outer stream. Even past that, the
outer stream would receive only payload.getvalue() with no length
prefix. -/
def Table.write (items : List (String × PyVal)) : Except PyErr (List Nat) :=
  if items.isEmpty then .ok []
  else .error .valueError

/-- Table.read of types.py: class Table subclasses AmqpType, not
Container, and defines no read of its own, so Table.read is AmqpType.read
and raises NotImplementedError for every input. -/
def Table.read (input : List Nat) : Except PyErr (PyVal × List Nat) :=
  AmqpType.read input

/-- The FrameTypes IntEnum of types.py. -/
def FrameTypes.method : Int := 1

/-- Header member of the FrameTypes IntEnum. -/
def FrameTypes.header : Int := 2

/-- Body member of the FrameTypes IntEnum. -/
def FrameTypes.body : Int := 3

/-- Heartbeat member of the FrameTypes IntEnum. -/
def FrameTypes.heartbeat : Int := 8

/-- The payload classes named by Frame.payload_types. In the source these
are the namedtuples MethodPayload, HeaderPayload, BodyPayload and an
undefined name HeartbeatPayload, all referenced before any of them is
defined, so building the class dict at import raises NameError; the pairs
are recorded as written. -/
inductive PayloadKind where
  | method | header | body | heartbeat

/-- Frame.payload_types of types.py: a dict keyed by the FrameTypes int
members. -/
def Frame.payload_types : List (PyVal × PayloadKind) :=
  [ (PyVal.int FrameTypes.method, PayloadKind.method),
    (PyVal.int FrameTypes.header, PayloadKind.header),
    (PyVal.int FrameTypes.body, PayloadKind.body),
    (PyVal.int FrameTypes.heartbeat, PayloadKind.heartbeat) ]

/-- Frame.read of types.py. It reads the type with Char (struct format c,
so the type is a one-byte bytes object), the channel with Short, the
payload length with Long, and bounds the payload read with that length.
It then looks up cls.payload_types with the bytes-typed key, which never
equals the int keys, raising KeyError; were the lookup to succeed, the
next expression reads the undefined attribute Frame.payload_data, an
AttributeError. The frame-end comparison further down is unreachable. -/
def Frame.read (input : List Nat) : Except PyErr Unit := do
  let (ty, r1) ← Primitive.read Codec.Char input
  let (_channel, r2) ← Primitive.read Codec.Short r1
  let (n, r3) ← Primitive.read Codec.Long r2
  let _payload := r3.take (pyIntVal n).toNat
  match pyLookup Frame.payload_types ty with
  | none => .error .keyError
  | some _ => .error .attributeError

/-- Frame.write of types.py: its entire body is the single bare name data,
an unbound variable, so calling it raises NameError with nothing written
to the stream. The pair is the bytes written and the error raised. -/
def Frame.write : List Nat × Option PyErr :=
  ([], some .nameError)

/-- The field_types tuple of MessageProperties in types.py, in source
order: content_type, content_encoding, headers, delivery_mode, priority,
correlation_id, reply_to, expiration, message_id, timestamp, type,
user_id, app_id, cluster_id. -/
def MessageProperties.field_types : List Codec :=
  [ .ShortStr, .ShortStr, .Table, .Char, .Char, .ShortStr, .ShortStr,
    .ShortStr, .ShortStr, .LongLong, .ShortStr, .ShortStr, .ShortStr,
    .ShortStr ]

/-- The helper to_bytes nested in MessageProperties.write: it writes the
value into a fresh BytesIO and then calls readall with the cursor already
at the end, so even a successful write yields the empty bytes. -/
def MessageProperties.to_bytes (t : Codec) (v : PyVal) : Except PyErr (List Nat) := do
  let _ ← codecWrite t v
  .ok []

/-- The flag and data pairs built by the generator inside
MessageProperties.write: for every field, present or not, the flag is 0
exactly when the field is None, and to_bytes is applied to the field with
its codec, so an absent field still has its codec run on None. -/
def MessageProperties.propPairs :
    List PyVal → List Codec → Except PyErr (List (Nat × List Nat))
  | _, [] => .ok []
  | [], _ => .ok []
  | p :: ps, t :: ts => do
      let flag : Nat := if p.isNone then 0 else 1
      let bs ← MessageProperties.to_bytes t p
      let rest ← MessageProperties.propPairs ps ts
      .ok ((flag, bs) :: rest)

/-- MessageProperties.write of types.py. The assert isinstance(value,
Properties) is the first statement, so a non-Properties argument raises
AssertionError with nothing written. For a Properties argument the pair
list is materialized by zip; an empty record makes the flags, data
unpacking of zip() raise ValueError; otherwise int.from_bytes(flags +
(0, 0)) packs each presence flag as a whole byte and the result is passed
to Short.write with no stream argument, a TypeError — but on realistic
records the to_bytes calls fail first, inside ShortStr.write. The result
pair is the bytes written to the sink and the error raised. -/
def MessageProperties.write (v : PyVal) : List Nat × Option PyErr :=
  match v with
  | .properties fields =>
      match MessageProperties.propPairs fields MessageProperties.field_types with
      | .error e => ([], some e)
      | .ok [] => ([], some .valueError)
      | .ok (_ :: _) => ([], some .typeError)
  | _ => ([], some .assertionError)

/-- C1: the claim says Frame encode serializes the payload first, then
writes type, channel, the exact payload byte length, the payload and the
sentinel 0xCE, while decode uses the length to bound the payload read. In
the source, Frame.write is an unimplemented stub whose body is the bare
undefined name data, so encoding raises NameError and emits nothing and
no length is ever computed; and Frame.read, even on a well-formed
one-byte method frame ending in 0xCE, fails with KeyError at the payload
class lookup, so the length invariant is never established on either
side. -/
theorem claim_C1_frame_length_field :
    Frame.write = ([], some PyErr.nameError) ∧
    Frame.read [1, 0, 0, 0, 0, 0, 1, 171, 206] = .error PyErr.keyError :=
  ⟨rfl, rfl⟩

/-- C2: the claim says encoding the non-empty table with the single entry
key a and unsigned-long 1 yields the four-byte length 00 00 00 07, the
short-string key, the tag byte and the value. In the source, Table.write
passes its accumulator BytesIO as the key_value parameter of
write_with_type through reduce, so encoding any non-empty table raises
ValueError with nothing written; and the entry writer itself, applied to
a proper pair, writes the str tag into the bytes payload buffer before
the key, a TypeError, with no length prefix anywhere. -/
theorem claim_C2_table_encode :
    Table.write [("a", PyVal.int 1)] = .error PyErr.valueError ∧
    write_with_type "a" (PyVal.int 1) = .error PyErr.typeError :=
  ⟨rfl, rfl⟩

/-- C3: the claim says encoding a MessageProperties record with only
content_type set to text/plain writes the flags word 80 00 followed by
the short-string 0A text/plain. In the source, the first present field is
serialized through ShortStr.write, whose swapped struct.pack arguments
raise struct.error before any byte reaches the sink, so nothing is
written. -/
theorem claim_C3_properties_encode :
    MessageProperties.write
      (PyVal.properties (PyVal.str "text/plain" :: List.replicate 13 PyVal.none)) =
      ([], some PyErr.structError) :=
  rfl

/-- C4: the claim says Decimal decode returns unscaled times ten to the
minus scale and is the inverse of encode, for example on 1.5. In the
source, encoding 1.5 (coefficient 15, exponent -1) raises struct.error
because the stream is passed in the value slot of struct.pack, and
decoding its claimed wire form 01 00 00 00 0F raises TypeError because
the return expression calls the codec class Decimal itself instead of the
decimal library constructor. -/
theorem claim_C4_decimal_roundtrip :
    Decimal.write ⟨false, 15, -1⟩ = .error PyErr.structError ∧
    Decimal.read [1, 0, 0, 0, 15] = .error PyErr.typeError :=
  ⟨rfl, rfl⟩

/-- C5: the claim says the registry maps tag b to the signed-octet codec,
B to the unsigned-octet codec, l to signed-longlong, L to
unsigned-longlong and V to Void. In the source, tag b (byte 98) maps to
Char with struct format c, tag B (byte 66) maps to SignedChar with the
signed format b — so packing the unsigned byte value 200 through it
fails while the true unsigned format accepts it — tag l (byte 108) maps
to LongLong with the unsigned format Q, tag L (byte 76) maps to
UnsignedLongLong whose format is None, and tag V (byte 86) has no entry
at all. -/
theorem claim_C5_registry_tags :
    lookupTag 98 = some Codec.Char ∧
    Codec.format Codec.Char = some "!c" ∧
    lookupTag 66 = some Codec.SignedChar ∧
    Codec.format Codec.SignedChar = some "!b" ∧
    lookupTag 108 = some Codec.LongLong ∧
    Codec.format Codec.LongLong = some "!Q" ∧
    lookupTag 76 = some Codec.UnsignedLongLong ∧
    Codec.format Codec.UnsignedLongLong = none ∧
    lookupTag 86 = none ∧
    structPack "!b" (PyVal.int 200) = .error PyErr.structError ∧
    structPack "!B" (PyVal.int 200) = .ok [200] :=
  ⟨rfl, rfl, rfl, rfl, rfl, rfl, rfl, rfl, rfl, rfl, rfl⟩

/-- C6: the claim says Bool decodes byte 0 to false and any nonzero byte
to true, and encodes true as the single byte 1. In the source, Bool.read
applies Python truthiness to the one-byte bytes object produced by struct
format c, and a length-one bytes object is truthy whatever its byte, so
byte 0 decodes to true; and Bool.write, reached through the standard
write(value, stream) convention, raises TypeError (len of a BytesIO, and
the following tuple minus int), so true is never encoded as the byte
1. -/
theorem claim_C6_bool_codec :
    Bool.read [0] = .ok (true, []) ∧
    Bool.write (PyVal.bool true) = .error PyErr.typeError :=
  ⟨rfl, rfl⟩

/-- C7: the claim says short-string encode writes a one-byte length equal
to the UTF-8 byte length followed by the bytes, failing with
LengthOverflow past 255 bytes. In the source, ShortStr.write calls the
length codec as len_type.write(stream, len(value)), placing the stream in
the value slot of struct.pack, which raises struct.error for every input
— even the two-byte ASCII string AB — and writes nothing; no
LengthOverflow check exists, and the length it would write is the
character count rather than the UTF-8 byte count. -/
theorem claim_C7_shortstr_encode :
    ShortStr.write (PyVal.str "AB") = .error PyErr.structError :=
  rfl

/-- C8: the claim says a byte sequence carrying the same table key twice
decodes with both entries preserved in wire order. In the source, Table
subclasses AmqpType rather than Container and defines no read, so
Table.read raises NotImplementedError on every input, including the
well-formed fourteen-byte table that repeats key a; no byte sequence
decodes as a FieldTable at all, and the declared py_type dict would in
any case keep only the last value of a duplicated key. -/
theorem claim_C8_duplicate_keys :
    Table.read [0, 0, 0, 14, 1, 97, 105, 0, 0, 0, 1, 1, 97, 105, 0, 0, 0, 2] =
      .error PyErr.notImplementedError :=
  rfl

/-- C9: the claim says a frame whose final byte is not 0xCE fails with
BadFrameEnd after the type, channel, length and payload are read. In the
source, Frame.read fails with KeyError at the payload class lookup — the
frame type unpacked by struct format c is a bytes object that never
equals the int keys of payload_types — before the terminator byte is
ever compared, as on this zero-length heartbeat frame terminated by 0x00
instead of 0xCE. -/
theorem claim_C9_bad_frame_end :
    Frame.read [8, 0, 0, 0, 0, 0, 0, 0] = .error PyErr.keyError :=
  rfl

/-- C10: the claim says MessageProperties encode rejects any value that is
not a Properties record before writing anything: the assert
isinstance(value, Properties) is the first statement of the body, so for
every non-Properties argument the call raises AssertionError and emits
nothing to the sink. -/
theorem claim_C10_nonproperties_rejected (v : PyVal) (h : v.isProperties = false) :
    MessageProperties.write v = ([], some PyErr.assertionError) := by
  cases v with
  | properties fields => simp [PyVal.isProperties] at h
  | int n => rfl
  | str s => rfl
  | bytes bs => rfl
  | bool b => rfl
  | none => rfl
  | stream => rfl

/-- Witness for C10 at the concrete non-Properties argument 0. -/
theorem claim_C10_witness :
    PyVal.isProperties (PyVal.int 0) = false ∧
    MessageProperties.write (PyVal.int 0) = ([], some PyErr.assertionError) :=
  ⟨rfl, claim_C10_nonproperties_rejected (PyVal.int 0) rfl⟩

end Aioamqp
